import Mathlib

/-!
Shallow embedding of the Blog SEO Optimizer Flask API (src/app.py).

Strings are modelled as `List Char`, matching Python's `str` (one entry per
code point).  Python's regular-expression operations are modelled by
executable scanners that implement exactly the patterns appearing in the
source (`<p[^>]*>(.*?)</p>`, `<[^>]+>`, attribute patterns with quoted
values, and plain literal searches), with Python's leftmost, non-overlapping
`findall`/`search`/`sub` semantics.  Python `str.lower` is modelled
character-wise for ASCII plus the Turkish uppercase letters used by the code
base.
-/

namespace SeoApp

/-- Character list of a string literal. -/
def sd (x : String) : List Char := x.data

/-- Python `str.lower`, character-wise (ASCII letters plus the Turkish
uppercase letters relevant to this code base). -/
def pyLower (c : Char) : Char :=
  if 'A' ≤ c ∧ c ≤ 'Z' then Char.toLower c
  else if c = 'Ğ' then 'ğ'
  else if c = 'Ü' then 'ü'
  else if c = 'Ş' then 'ş'
  else if c = 'Ö' then 'ö'
  else if c = 'Ç' then 'ç'
  else if c = 'İ' then 'i'
  else c

/-- Lowercase a whole string (Python `s.lower()`). -/
def lowerL (s : List Char) : List Char := s.map pyLower

/-- `begins pat s`: does `s` start with `pat` (case-sensitive)? -/
def begins : List Char → List Char → Bool
  | [], _ => true
  | _ :: _, [] => false
  | p :: ps, c :: cs => p == c && begins ps cs

/-- `beginsCI pat s`: does `s` start with `pat`, comparing case-insensitively
via `pyLower`? -/
def beginsCI : List Char → List Char → Bool
  | [], _ => true
  | _ :: _, [] => false
  | p :: ps, c :: cs => pyLower p == pyLower c && beginsCI ps cs

/-- Python substring test `pat in s` (case-sensitive). -/
def hasSub : List Char → List Char → Bool
  | [], pat => begins pat []
  | s@(_ :: rest), pat => begins pat s || hasSub rest pat

/-- Case-insensitive substring test (used for `in` over lowered strings and
for `re.search` of literal patterns with `re.IGNORECASE`). -/
def hasSubCI : List Char → List Char → Bool
  | [], pat => beginsCI pat []
  | s@(_ :: rest), pat => beginsCI pat s || hasSubCI rest pat

/-- Index of the first occurrence of the literal `pat` in `s`
(Python `re.search` of an escaped literal, returning the match start). -/
def findSubPos : List Char → List Char → Option Nat
  | [], pat => if begins pat [] then some 0 else none
  | s@(_ :: rest), pat =>
    if begins pat s then some 0 else (findSubPos rest pat).map (· + 1)

/-- Auxiliary for `replaceFirst`, assuming a non-empty needle. -/
def replaceFirstA : List Char → List Char → List Char → List Char
  | [], _, _ => []
  | s@(c :: rest), old, new =>
    if begins old s then new ++ s.drop old.length
    else c :: replaceFirstA rest old new

/-- Python `s.replace(old, new, 1)`. -/
def replaceFirst (s old new : List Char) : List Char :=
  if old = [] then new ++ s else replaceFirstA s old new

/-- Fuelled worker for `replaceAll` (the fuel is an upper bound on the number
of characters still to be scanned, so it never runs out on the wrapper's
call). -/
def replaceAllF : Nat → List Char → List Char → List Char → List Char
  | 0, s, _, _ => s
  | _ + 1, [], _, _ => []
  | fuel + 1, s@(c :: rest), old, new =>
    if begins old s then new ++ replaceAllF fuel (s.drop old.length) old new
    else c :: replaceAllF fuel rest old new

/-- Python `s.replace(old, new)`: replace every non-overlapping occurrence,
left to right. -/
def replaceAll (s old new : List Char) : List Char :=
  if old = [] then s else replaceAllF s.length s old new

/-- `s[:pos] + ins + s[pos:]`. -/
def insertAt (s : List Char) (pos : Nat) (ins : List Char) : List Char :=
  s.take pos ++ ins ++ s.drop pos

/-- Fuelled worker for `stripTags`. -/
def stripTagsF : Nat → List Char → List Char
  | 0, s => s
  | _ + 1, [] => []
  | fuel + 1, '<' :: rest =>
    let span := rest.takeWhile (· ≠ '>')
    if span.length ≠ 0 ∧ span.length < rest.length then
      stripTagsF fuel (rest.drop (span.length + 1))
    else '<' :: stripTagsF fuel rest
  | fuel + 1, c :: rest => c :: stripTagsF fuel rest

/-- Python `re.sub(r'<[^>]+>', '', s)`: delete every maximal `<...>` span
holding at least one non-`>` character before the closing `>`. -/
def stripTags (s : List Char) : List Char := stripTagsF s.length s

/-- Python whitespace for `str.split()` with no arguments. -/
def isSpaceC (c : Char) : Bool :=
  c = ' ' || c = '\t' || c = '\n' || c = '\r' || c = '\x0b' || c = '\x0c'

/-- Worker for `wordsCount`: the flag records whether the previous character
was inside a word. -/
def wordsCountF : Bool → List Char → Nat
  | _, [] => 0
  | inWord, c :: rest =>
    if isSpaceC c then wordsCountF false rest
    else (if inWord then 0 else 1) + wordsCountF true rest

/-- `len(s.split())` in Python: the number of maximal non-whitespace runs. -/
def wordsCount (s : List Char) : Nat := wordsCountF false s

/-- Match `<name[^>]*>` (case-insensitive on the tag name) at the head of
`s`, returning the number of characters consumed. -/
def matchOpenTag (name : List Char) (s : List Char) : Option Nat :=
  match s with
  | '<' :: rest =>
    if beginsCI name rest then
      let r2 := rest.drop name.length
      let span := r2.takeWhile (· ≠ '>')
      if span.length < r2.length then some (1 + name.length + span.length + 1)
      else none
    else none
  | _ => none

/-- Does a match of `f` begin at some position of `s` (Python `re.search`)? -/
def scanAny (f : List Char → Option Nat) : List Char → Bool
  | [] => (f []).isSome
  | s@(_ :: rest) => (f s).isSome || scanAny f rest

/-- Count the non-overlapping, leftmost matches of `f` in `s`
(Python `re.findall` counting). -/
def scanCount (f : List Char → Option Nat) : Nat → List Char → Nat
  | 0, _ => 0
  | _ + 1, [] => 0
  | fuel + 1, s@(_ :: rest) =>
    match f s with
    | some k => 1 + scanCount f fuel (s.drop (max k 1))
    | none => scanCount f fuel rest

/-- Collect the non-overlapping, leftmost matches of `f` in `s`
(Python `re.findall` returning the matched substrings). -/
def scanCollect (f : List Char → Option Nat) : Nat → List Char → List (List Char)
  | 0, _ => []
  | _ + 1, [] => []
  | fuel + 1, s@(_ :: rest) =>
    match f s with
    | some k => s.take k :: scanCollect f fuel (s.drop (max k 1))
    | none => scanCollect f fuel rest

/-- `re.search(<name>[^>]*>, s, re.IGNORECASE)` as a Boolean. -/
def hasOpenTag (name : List Char) (s : List Char) : Bool :=
  scanAny (matchOpenTag name) s

/-- `len(re.findall(<name>[^>]*>, s, re.IGNORECASE))`. -/
def countOpenTag (name : List Char) (s : List Char) : Nat :=
  scanCount (matchOpenTag name) s.length s

/-- `len(re.findall(re.escape(pat), s, re.IGNORECASE))`: count the
non-overlapping case-insensitive occurrences of a literal; an empty pattern
matches at every position (Python returns `len(s) + 1` empty matches). -/
def countSubCI (s pat : List Char) : Nat :=
  if pat = [] then s.length + 1
  else scanCount (fun t => if beginsCI pat t then some pat.length else none) s.length s

/-- Count non-overlapping case-sensitive occurrences of a non-empty
literal. -/
def countSub (s pat : List Char) : Nat :=
  if pat = [] then s.length + 1
  else scanCount (fun t => if begins pat t then some pat.length else none) s.length s

/-- Nat rendered in decimal, as Python's string interpolation does. -/
def natStr (n : Nat) : List Char := (Nat.repr n).data

/-! ### A tiny backtracking matcher

The attribute patterns of `calculate_seo_score`
(`<meta[^>]*name=["\x27]description["\x27][^>]*>` and the `<a ...>` /
`<img ...>` patterns) are sequences of literals, single-character classes,
an optional character and starred classes.  `matchToks` implements Python's
greedy backtracking for exactly that fragment. -/

/-- One token of the pattern fragment used by the source's regexes. -/
inductive Tok where
  | lit (ci : Bool) (cs : List Char)
  | one (neg : Bool) (cs : List Char)
  | opt (cs : List Char)
  | star (neg : Bool) (cs : List Char)

/-- Does character `c` satisfy the (possibly negated) class `cs`? -/
def tokHit (neg : Bool) (cs : List Char) (c : Char) : Bool :=
  if neg then !(cs.contains c) else cs.contains c

/-- Literal comparison, case-insensitive when `ci` is set. -/
def beginsG (ci : Bool) (pat s : List Char) : Bool :=
  if ci then beginsCI pat s else begins pat s

/-- Match the token sequence at the head of `s`, returning the number of
characters consumed; stars are greedy and backtrack (longest split first),
as in Python's `re`. -/
def matchToks : List Tok → List Char → Option Nat
  | [], _ => some 0
  | .lit ci cs :: rest, s =>
    if beginsG ci cs s then (matchToks rest (s.drop cs.length)).map (cs.length + ·)
    else none
  | .one _ _ :: _, [] => none
  | .one neg cs :: rest, c :: t =>
    if tokHit neg cs c then (matchToks rest t).map (· + 1) else none
  | .opt _ :: rest, [] => matchToks rest []
  | .opt cs :: rest, s@(c :: t) =>
    if cs.contains c then
      match matchToks rest t with
      | some r => some (r + 1)
      | none => matchToks rest s
    else matchToks rest s
  | .star neg cs :: rest, s =>
    let run := (s.takeWhile (tokHit neg cs)).length
    ((List.range (run + 1)).reverse.filterMap (fun k =>
      (matchToks rest (s.drop k)).map (k + ·))).head?

/-- `re.search(pat, s)` for a token pattern. -/
def reSearch (toks : List Tok) (s : List Char) : Bool :=
  scanAny (matchToks toks) s

/-- `len(re.findall(pat, s))` for a token pattern. -/
def reCount (toks : List Tok) (s : List Char) : Nat :=
  scanCount (matchToks toks) s.length s

/-- The two quote characters of the character class `["\x27]`. -/
def quoteChars : List Char := ['\x22', '\x27']

/-- `<meta[^>]*name=["\x27]description["\x27][^>]*>` with `re.IGNORECASE`. -/
def metaDescPat : List Tok :=
  [.lit true (sd "<meta"), .star true ['>'], .lit true (sd "name="),
   .one false quoteChars, .lit true (sd "description"), .one false quoteChars,
   .star true ['>'], .lit true (sd ">")]

/-- `<a[^>]*href=["\x27][^"\x27]*["\x27][^>]*>` (case-sensitive). -/
def aHrefPat : List Tok :=
  [.lit false (sd "<a"), .star true ['>'], .lit false (sd "href="),
   .one false quoteChars, .star true quoteChars, .one false quoteChars,
   .star true ['>'], .lit false (sd ">")]

/-- `<a[^>]*href=["\x27]https?://[^"\x27]*["\x27][^>]*>` (case-sensitive). -/
def aHrefExtPat : List Tok :=
  [.lit false (sd "<a"), .star true ['>'], .lit false (sd "href="),
   .one false quoteChars, .lit false (sd "http"), .opt ['s'],
   .lit false (sd "://"), .star true quoteChars, .one false quoteChars,
   .star true ['>'], .lit false (sd ">")]

/-- `<img[^>]*alt=["\x27][^"\x27]*["\x27][^>]*>` (case-sensitive). -/
def imgAltPat : List Tok :=
  [.lit false (sd "<img"), .star true ['>'], .lit false (sd "alt="),
   .one false quoteChars, .star true quoteChars, .one false quoteChars,
   .star true ['>'], .lit false (sd ">")]

/-! ### Paragraph matching

`<p[^>]*>(.*?)</p>` with `re.IGNORECASE`: `[^>]*` is forced up to the first
`>`, and the non-greedy `(.*?)` takes the closest `</p>` not separated from
the opening tag by a newline (`.` does not match `\n`). -/

/-- Distance to the closest case-insensitive `</p>` reachable without
crossing a newline. -/
def findCloseP : List Char → Option Nat
  | [] => none
  | s@(c :: rest) =>
    if beginsCI (sd "</p>") s then some 0
    else if c = '\n' then none
    else (findCloseP rest).map (· + 1)

/-- Match the whole `<p[^>]*>(.*?)</p>` pattern at the head of `s`,
returning the consumed length. -/
def matchPTagFull (s : List Char) : Option Nat :=
  match matchOpenTag (sd "p") s with
  | some k =>
    match findCloseP (s.drop k) with
    | some m => some (k + m + 4)
    | none => none
  | none => none

/-- `re.search(r'<p[^>]*>(.*?)</p>', s, re.IGNORECASE)`, returning
`group(0)` and `group(1)` of the first match. -/
def findPTagGroup : List Char → Option (List Char × List Char)
  | [] => none
  | s@(_ :: rest) =>
    match matchOpenTag (sd "p") s with
    | some k =>
      match findCloseP (s.drop k) with
      | some m => some (s.take (k + m + 4), (s.drop k).take m)
      | none => findPTagGroup rest
    | none => findPTagGroup rest

/-- `re.findall(r'<p[^>]*>.*?</p>', s, re.IGNORECASE)`. -/
def findAllPTags (s : List Char) : List (List Char) :=
  scanCollect matchPTagFull s.length s

/-- Scan for `</h2>` (case-insensitive) without crossing a newline. -/
def scanCloseH2 : List Char → Bool
  | [] => false
  | s@(c :: rest) =>
    if beginsCI (sd "</h2>") s then true
    else if c = '\n' then false
    else scanCloseH2 rest

/-- Scan for the keyword (case-insensitive) followed, still on the same
line, by `</h2>`. -/
def kwThenCloseH2 (kw : List Char) : List Char → Bool
  | [] => false
  | s@(c :: rest) =>
    (beginsCI kw s && scanCloseH2 (s.drop kw.length)) ||
      (if c = '\n' then false else kwThenCloseH2 kw rest)

/-- `re.search(rf'<h2[^>]*>.*{re.escape(kw)}.*</h2>', s, re.IGNORECASE)`. -/
def h2ContainsKw (s kw : List Char) : Bool :=
  scanAny (fun t =>
    match matchOpenTag (sd "h2") t with
    | some k => if kwThenCloseH2 kw (t.drop k) then some 1 else none
    | none => none) s

/-! ### The optimizer helpers of src/app.py -/

/-- `optimize_title` (src/app.py lines 16-31): prepend the keyword when it is
not already a case-insensitive substring of the title, then clamp to 60
characters.  The `except` branch is unreachable for string inputs. -/
def optimize_title (title focus_keyword : List Char) : List Char :=
  let optimized_title :=
    if !(hasSub (lowerL title) (lowerL focus_keyword)) then
      focus_keyword ++ sd " - " ++ title
    else title
  if 60 < optimized_title.length then optimized_title.take 57 ++ sd "..."
  else optimized_title

/-- `generate_meta_description` (src/app.py lines 33-54): strip tags, seed
with the first `.`-separated segment, append the fixed template, truncate
above 160 or pad below 150.  `content.split('.')[0]` is the prefix before
the first dot. -/
def generate_meta_description (content focus_keyword : List Char) : List Char :=
  let clean_content := stripTags content
  let first_sentence := clean_content.takeWhile (· ≠ '.')
  let meta_desc := first_sentence ++ sd " " ++ focus_keyword ++
    sd " konusunda kapsamlı rehber ve uzman danışmanlık hizmetleri."
  if 160 < meta_desc.length then meta_desc.take 157 ++ sd "..."
  else if meta_desc.length < 150 then
    meta_desc ++ sd " Detaylı bilgi için tıklayın."
  else meta_desc

/-- The fixed ordered tag list of `generate_tags` (src/app.py lines 59-70). -/
def base_tags (focus_keyword : List Char) : List (List Char) :=
  [focus_keyword,
   focus_keyword ++ sd " rehberi",
   focus_keyword ++ sd " nasıl alınır",
   focus_keyword ++ sd " 2025",
   focus_keyword ++ sd " başvuru",
   focus_keyword ++ sd " şartları",
   focus_keyword ++ sd " belgeleri",
   focus_keyword ++ sd " süreci",
   focus_keyword ++ sd " faydaları",
   focus_keyword ++ sd " avantajları"]

/-- `generate_tags` (src/app.py lines 56-75): `base_tags[:random.randint(5, 10)]`.
The random draw is modelled as the explicit parameter `draw`. -/
def generate_tags (focus_keyword : List Char) (draw : Nat) : List (List Char) :=
  (base_tags focus_keyword).take draw

/-- The transliteration applied to the slugified filename in
`generate_image_fields`: chained single-character `str.replace` calls. -/
def translitChar (c : Char) : Char :=
  if c = ' ' then '-'
  else if c = 'ı' then 'i'
  else if c = 'ğ' then 'g'
  else if c = 'ü' then 'u'
  else if c = 'ş' then 's'
  else if c = 'ö' then 'o'
  else if c = 'ç' then 'c'
  else c

/-- The four image metadata fields. -/
structure ImageFields where
  alt_text : List Char
  image_title : List Char
  image_caption : List Char
  image_description : List Char

/-- `generate_image_fields` (src/app.py lines 77-102). -/
def generate_image_fields (focus_keyword : List Char) : ImageFields :=
  let filename := (lowerL focus_keyword).map translitChar
  { alt_text := focus_keyword ++ sd " konusunda detaylı bilgi ve rehber"
    image_title := filename ++ sd "-rehberi-2025"
    image_caption := focus_keyword ++ sd " Rehberi - 2025 Güncel Bilgiler"
    image_description := focus_keyword ++
      sd " konusunda kapsamlı rehber ve uzman danışmanlık hizmetleri. Detaylı bilgi ve adım adım süreç açıklaması." }

/-- The transition-word list of `optimize_html_content` (lines 161-164). -/
def transition_words : List (List Char) :=
  [sd "Ayrıca", sd "Bununla birlikte", sd "Özellikle", sd "Önemli olarak",
   sd "Sonuç olarak", sd "Bu nedenle", sd "Bunun sonucunda", sd "Kısacası"]

/-- The table-of-contents block (lines 131-139). -/
def tocBlock (focus_keyword : List Char) : List Char :=
  sd "<div class=\"table-of-contents\">\n<h3>İçindekiler</h3>\n<ul>\n<li><a href=\"#nedir\">" ++
  focus_keyword ++ sd " Nedir?</a></li>\n<li><a href=\"#avantajlar\">" ++
  focus_keyword ++ sd " Avantajları</a></li>\n<li><a href=\"#nasil\">" ++
  focus_keyword ++ sd " Nasıl Alınır?</a></li>\n<li><a href=\"#sartlar\">" ++
  focus_keyword ++ sd " Şartları</a></li>\n</ul>\n</div>"

/-- The canned filler sections appended when the word count is below 600
(lines 176-185). -/
def additionalContent (focus_keyword : List Char) : List Char :=
  sd "\n<h3>" ++ focus_keyword ++ sd " Süreci</h3>\n<p>" ++ focus_keyword ++
  sd " başvuru süreci oldukça basit ve hızlıdır. İlk olarak gerekli belgeleri hazırlamanız gerekmektedir. Bu belgeler arasında kimlik fotokopisi, adres belgesi ve diğer gerekli evraklar bulunmaktadır.</p>\n\n<h3>" ++
  focus_keyword ++ sd " Faydaları</h3>\n<p>" ++ focus_keyword ++
  sd " almanın birçok faydası bulunmaktadır. Bu belge sayesinde çeşitli avantajlardan yararlanabilirsiniz. Özellikle iş hayatında ve resmi işlemlerde büyük kolaylık sağlamaktadır.</p>\n\n<h3>Sonuç</h3>\n<p>" ++
  focus_keyword ++
  sd " konusunda bilgi sahibi olmak ve bu belgeyi almak için yukarıdaki adımları takip etmeniz yeterlidir. Bu rehber sayesinde süreç hakkında detaylı bilgi edinebilirsiniz.</p>\n"

/-- The slugified keyword used in link targets:
`focus_keyword.lower().replace(' ', '-')`. -/
def slugify (focus_keyword : List Char) : List Char :=
  (lowerL focus_keyword).map (fun c => if c = ' ' then '-' else c)

/-- The two internal links of lines 148-151. -/
def internalLinks (focus_keyword : List Char) : List (List Char) :=
  [sd "<a href=\"/" ++ slugify focus_keyword ++ sd "\" title=\"" ++
     focus_keyword ++ sd "\">daha fazla bilgi</a>",
   sd "<a href=\"/" ++ slugify focus_keyword ++ sd "-rehberi\" title=\"" ++
     focus_keyword ++ sd " rehberi\">detaylı rehber</a>"]

/-- The external search link of line 157. -/
def externalLink (focus_keyword : List Char) : List Char :=
  sd "<a href=\"https://www.google.com/search?q=" ++ focus_keyword ++
  sd "\" target=\"_blank\" rel=\"nofollow\">Google\x27da ara</a>"

/-- The transition-word loop of lines 167-171: for the 2nd and 3rd paragraph
matches (index `i` in the slice `p_tags[1:3]`), rewrite `<p>` inside the
matched text and substitute the first occurrence of the match. -/
def applyTransitions : List Char → Nat → List (List Char) → List Char
  | s, _, [] => s
  | s, i, p :: rest =>
    let s' :=
      if i < transition_words.length then
        replaceFirst s p
          (replaceAll p (sd "<p>") (sd "<p>" ++ transition_words.getD i [] ++ sd ", "))
      else s
    applyTransitions s' (i + 1) rest

/-- `optimize_html_content` (src/app.py lines 104-191).  The
`optimized_title` argument of the source is unused; the `except` fallback is
unreachable for string inputs. -/
def optimize_html_content (html_code focus_keyword : List Char) : List Char :=
  -- 1. add the keyword to the first paragraph if absent from the body
  let optimized := html_code
  let optimized :=
    if !(hasSub (lowerL optimized) (lowerL focus_keyword)) then
      match findPTagGroup optimized with
      | some (whole, p_content) =>
        replaceAll optimized whole
          (sd "<p>" ++ focus_keyword ++ sd " konusunda " ++ p_content ++ sd "</p>")
      | none => optimized
    else optimized
  -- 2. add an H2 heading with the keyword if no H2 already holds it
  let optimized :=
    if !(h2ContainsKw optimized focus_keyword) then
      match findSubPos optimized (sd "</p>") with
      | some i =>
        insertAt optimized (i + 4)
          (sd "\n<h2>" ++ focus_keyword ++ sd " Nedir?</h2>\n")
      | none => optimized
    else optimized
  -- 3. add an H3 heading after the first closing H2
  let optimized :=
    replaceFirst optimized (sd "</h2>")
      (sd "</h2>\n<h3>" ++ focus_keyword ++ sd " Avantajları</h3>\n")
  -- 4. insert the table of contents after the first closing paragraph
  let optimized :=
    match findSubPos optimized (sd "</p>") with
    | some i => insertAt optimized (i + 4) (sd "\n" ++ tocBlock focus_keyword ++ sd "\n")
    | none => optimized
  -- 5. append the two internal links inside the first closing paragraph
  let optimized :=
    (internalLinks focus_keyword).foldl
      (fun acc link => replaceFirst acc (sd "</p>") (sd " " ++ link ++ sd "</p>")) optimized
  -- 6. append the external link inside the first closing paragraph
  let optimized :=
    replaceFirst optimized (sd "</p>") (sd " " ++ externalLink focus_keyword ++ sd "</p>")
  -- 7. prepend transition words to the 2nd and 3rd paragraphs
  let p_tags := findAllPTags optimized
  let optimized := applyTransitions optimized 0 ((p_tags.drop 1).take 2)
  -- 8. append the canned sections when below 600 words
  let word_count := wordsCount (stripTags optimized)
  if word_count < 600 then optimized ++ additionalContent focus_keyword
  else optimized

/-- `calculate_seo_score` (src/app.py lines 193-251): fixed increments gated
on features of the html, clamped to 100.  The `except` branch is unreachable
for string/integer inputs. -/
def calculate_seo_score (html_code focus_keyword : List Char) (current_score : Int) : Int :=
  let score := current_score
  let score := score + (if hasSubCI html_code (sd "<title>") then (10 : Int) else 0)
  let score := score + (if reSearch metaDescPat html_code then (10 : Int) else 0)
  let score := score + (if hasOpenTag (sd "h1") html_code then (5 : Int) else 0)
  let h2_count := countOpenTag (sd "h2") html_code
  let score := score + ((min (h2_count * 5) 15 : Nat) : Int)
  let h3_count := countOpenTag (sd "h3") html_code
  let score := score + ((min (h3_count * 2) 10 : Nat) : Int)
  let keyword_count := countSubCI html_code focus_keyword
  let score := score + (if 3 ≤ keyword_count then (15 : Int) else 0)
  let internal_links := reCount aHrefPat html_code
  let score := score + ((min (internal_links * 2) 10 : Nat) : Int)
  let external_links := reCount aHrefExtPat html_code
  let score := score + ((min (external_links * 2) 5 : Nat) : Int)
  let img_alt_count := reCount imgAltPat html_code
  let score := score + ((min (img_alt_count * 2) 10 : Nat) : Int)
  let word_count := wordsCount (stripTags html_code)
  let score := score + (if 600 ≤ word_count then (10 : Int) else 0)
  let score := score + (if hasSubCI html_code (sd "table-of-contents") then (5 : Int) else 0)
  let score := score + (if hasSubCI html_code (sd "schema.org") then (5 : Int) else 0)
  min score 100

/-- `', '.join(tags)`. -/
def commaJoin : List (List Char) → List Char
  | [] => []
  | [t] => t
  | t :: rest => t ++ sd ", " ++ commaJoin rest

/-- The full HTML document assembled by the f-string of lines 302-338.
`{{`/`}}` of the Python f-string render as literal braces, written `\x7b`
and `\x7d` here. -/
def buildDocument (optimized_title optimized_meta : List Char)
    (suggested_tags : List (List Char))
    (focus_keyword optimized_content : List Char) : List Char :=
  sd "<!DOCTYPE html>\n<html lang=\"tr\">\n<head>\n    <meta charset=\"UTF-8\">\n    <meta name=\"viewport\" content=\"width=device-width, initial-scale=1.0\">\n    <title>" ++
  optimized_title ++
  sd "</title>\n    <meta name=\"description\" content=\"" ++ optimized_meta ++
  sd "\">\n    <meta name=\"keywords\" content=\"" ++ commaJoin suggested_tags ++
  sd "\">\n    <link rel=\"canonical\" href=\"https://example.com/" ++
  slugify focus_keyword ++
  sd "\">\n    \n    <!-- Schema.org structured data -->\n    <script type=\"application/ld+json\">\n    \x7b\n        \"@context\": \"https://schema.org\",\n        \"@type\": \"Article\",\n        \"headline\": \"" ++
  optimized_title ++
  sd "\",\n        \"description\": \"" ++ optimized_meta ++
  sd "\",\n        \"keywords\": \"" ++ focus_keyword ++
  sd "\",\n        \"author\": \x7b\n            \"@type\": \"Organization\",\n            \"name\": \"Blog SEO Optimizer\"\n        \x7d,\n        \"publisher\": \x7b\n            \"@type\": \"Organization\",\n            \"name\": \"Blog SEO Optimizer\"\n        \x7d,\n        \"datePublished\": \"2025-01-01\",\n        \"dateModified\": \"2025-01-01\",\n        \"wordCount\": \"" ++
  natStr (wordsCount optimized_content) ++
  sd "\",\n        \"articleSection\": \"Blog\"\n    \x7d\n    </script>\n</head>\n<body>\n    " ++
  optimized_content ++
  sd "\n</body>\n</html>"

/-! ### The /api/optimize endpoint -/

/-- The typed payload of a well-formed optimize request. -/
structure OptimizeRequest where
  title : List Char
  html_code : List Char
  focus_keyword : List Char
  seo_score : Int

/-- A JSON value, as produced by `request.get_json()`. -/
inductive JVal where
  | null
  | bool (b : Bool)
  | num (n : Int)
  | str (s : List Char)
  | arr (xs : List JVal)
  | obj (kvs : List (List Char × JVal))

/-- Is this value a JSON array? -/
def JVal.isArr : JVal → Bool
  | .arr _ => true
  | _ => false

/-- Python equality of a JSON value against a string (used by `in` over a
JSON array): only equal strings compare equal. -/
def jvalIsStrEq (key : List Char) : JVal → Bool
  | .str s => s == key
  | _ => false

/-- Does the JSON object (keys are unique in a parsed body) contain `k`? -/
def hasKey (kvs : List (List Char × JVal)) (k : List Char) : Bool :=
  kvs.any (fun kv => kv.1 == k)

/-- Python's `key in data` for each JSON value shape: key membership for a
dict, substring for a string, element equality for a list; for `None`,
numbers and booleans the operator raises `TypeError` (modelled as `none`). -/
def pyIn (key : List Char) : JVal → Option Bool
  | .obj kvs => some (hasKey kvs key)
  | .str sVal => some (hasSub sVal key)
  | .arr xs => some (xs.any (jvalIsStrEq key))
  | .null => none
  | .bool _ => none
  | .num _ => none

/-- The required field list of line 281, in source order. -/
def requiredFields : List (List Char) :=
  [sd "title", sd "html_code", sd "focus_keyword", sd "seo_score"]

/-- The validation loop of lines 282-287: `none` when a membership check
raises, `some (some f)` for the first missing field, `some none` when every
field is present. -/
def firstMissingGo (data : JVal) : List (List Char) → Option (Option (List Char))
  | [] => some none
  | f :: rest =>
    match pyIn f data with
    | none => none
    | some false => some (some f)
    | some true => firstMissingGo data rest

/-- The error message of line 285. -/
def missingMsg (f : List Char) : List Char :=
  sd "Missing required field: " ++ f

/-- First value stored under key `k` (parsed JSON objects have unique
keys). -/
def lookupKey (kvs : List (List Char × JVal)) (k : List Char) : Option JVal :=
  (kvs.find? (fun kv => kv.1 == k)).map (·.2)

/-- The `data` object of the success response (lines 344-374).
`keyword_density` is `round(random.uniform(1.2, 2.1), 1)`, an unseeded
random float; it is modelled as an abstract parameter threaded through the
pipeline (in tenths). -/
structure RespData where
  optimized_title : List Char
  optimized_html : List Char
  suggested_tags : JVal
  alt_text : List Char
  image_title : List Char
  image_caption : List Char
  image_description : List Char
  seo_score_before : Int
  seo_score_after : Int
  improvement : Int
  word_count : Nat
  keyword_density : Nat
  title_length : Nat
  meta_length : Nat

/-- The body of `optimize_content` after validation (lines 289-374), for a
well-typed payload.  `tagDraw` models `random.randint(5, 10)` inside
`generate_tags`; `density` models the random keyword density. -/
def optimizePipeline (req : OptimizeRequest) (tagDraw density : Nat) : RespData :=
  let optimized_title := optimize_title req.title req.focus_keyword
  let optimized_meta := generate_meta_description req.html_code req.focus_keyword
  let optimized_content := optimize_html_content req.html_code req.focus_keyword
  let suggested_tags := generate_tags req.focus_keyword tagDraw
  let image_fields := generate_image_fields req.focus_keyword
  let optimized_html :=
    buildDocument optimized_title optimized_meta suggested_tags
      req.focus_keyword optimized_content
  let new_score := calculate_seo_score optimized_html req.focus_keyword req.seo_score
  { optimized_title := optimized_title
    optimized_html := optimized_html
    suggested_tags := JVal.str (commaJoin suggested_tags)
    alt_text := image_fields.alt_text
    image_title := image_fields.image_title
    image_caption := image_fields.image_caption
    image_description := image_fields.image_description
    seo_score_before := req.seo_score
    seo_score_after := new_score
    improvement := new_score - req.seo_score
    word_count := wordsCount (stripTags optimized_content)
    keyword_density := density
    title_length := optimized_title.length
    meta_length := optimized_meta.length }

/-- The HTTP outcome of `POST /api/optimize`.  `badRequest e` is HTTP 400
with `{error: e, success: false}`; `serverError` is HTTP 500 with
`{error: <exception text>, success: false}` from the handler of lines
376-380.  `unmodelled` covers payloads that pass the membership checks but
bind a required key to a non-string/non-integer value: the Python then runs
the helpers on ill-typed data, surviving through their `except` fallbacks,
a path outside this embedding (and outside every claim). -/
inductive ApiResponse where
  | ok (data : RespData)
  | badRequest (error : List Char)
  | serverError
  | unmodelled

/-- The `optimize_content` view function (src/app.py lines 274-380).  A body
on which the membership check raises hits the top-level handler (HTTP 500);
the first missing field short-circuits to HTTP 400 before any optimizer
helper runs; a string or list body that passes all membership checks raises
`TypeError` at `data['title']`, again HTTP 500. -/
def optimize_content (body : JVal) (tagDraw density : Nat) : ApiResponse :=
  match firstMissingGo body requiredFields with
  | none => .serverError
  | some (some f) => .badRequest (missingMsg f)
  | some none =>
    match body with
    | .obj kvs =>
      match lookupKey kvs (sd "title"), lookupKey kvs (sd "html_code"),
            lookupKey kvs (sd "focus_keyword"), lookupKey kvs (sd "seo_score") with
      | some (.str t), some (.str h), some (.str k), some (.num sc) =>
        .ok (optimizePipeline ⟨t, h, k, sc⟩ tagDraw density)
      | _, _, _, _ => .unmodelled
    | _ => .serverError

/-! ### Definitions supporting the individual claims -/

/-- The title rule as the specification words it: keep the title when the
keyword is a case-insensitive substring, else produce `"{keyword} - {title}"`;
truncate to 57 characters plus an ellipsis when the result exceeds 60. -/
def titleRuleSpec (title focus_keyword : List Char) : List Char :=
  let base :=
    if hasSub (lowerL title) (lowerL focus_keyword) then title
    else focus_keyword ++ sd " - " ++ title
  if 60 < base.length then base.take 57 ++ sd "..." else base

/-- The required fields strictly before `f` in the validation order. -/
def fieldsBefore (f : List Char) : List (List Char) :=
  requiredFields.takeWhile (fun g => !(g == f))

/-- A body of 80 letters with no markup and no sentence-ending dot: its
meta-description seed is 141 characters, which the padding branch grows to
170. -/
def c2Html : List Char := List.replicate 80 'b'

/-- The request used for the concrete response-shape counterexamples. -/
def reqEx : OptimizeRequest :=
  ⟨sd "Guide", sd "<p>Hello world</p>", sd "Visa", 50⟩

/-- A well-typed request body (all four required fields present). -/
def kvsGood : List (List Char × JVal) :=
  [(sd "title", JVal.str (sd "Guide")),
   (sd "html_code", JVal.str (sd "<p>Hello world</p>")),
   (sd "focus_keyword", JVal.str (sd "Visa")),
   (sd "seo_score", JVal.num 50)]

/-- A body carrying only `title`: the first missing field is `html_code`. -/
def kvsMissing : List (List Char × JVal) :=
  [(sd "title", JVal.str (sd "Guide"))]

/-- One application of the content rewriter to the claim C6/C7 input. -/
def c7_once : List Char :=
  optimize_html_content (sd "<p>Hello world</p>") (sd "Test")

/-- The content rewriter applied to its own output. -/
def c7_twice : List Char := optimize_html_content c7_once (sd "Test")

/-! ## Helper lemmas -/

theorem ite_nonneg_int (c : Prop) [Decidable c] (n : Int) (hn : 0 ≤ n) :
    (0 : Int) ≤ if c then n else 0 := by
  split
  · exact hn
  · exact le_refl 0

theorem clamp60_le (base : List Char) :
    (if 60 < base.length then base.take 57 ++ sd "..." else base).length ≤ 60 := by
  have h3 : (sd "...").length = 3 := rfl
  split
  · rw [List.length_append, h3, List.length_take]
    omega
  · omega

/-- The score of `calculate_seo_score` only adds non-negative increments to
the incoming score before clamping at 100. -/
theorem calculate_seo_score_bounds (html_code focus_keyword : List Char)
    (current_score : Int) (h100 : current_score ≤ 100) :
    current_score ≤ calculate_seo_score html_code focus_keyword current_score ∧
    calculate_seo_score html_code focus_keyword current_score ≤ 100 := by
  have t1 : (0 : Int) ≤ if hasSubCI html_code (sd "<title>") then (10 : Int) else 0 :=
    ite_nonneg_int _ _ (by norm_num)
  have t2 : (0 : Int) ≤ if reSearch metaDescPat html_code then (10 : Int) else 0 :=
    ite_nonneg_int _ _ (by norm_num)
  have t3 : (0 : Int) ≤ if hasOpenTag (sd "h1") html_code then (5 : Int) else 0 :=
    ite_nonneg_int _ _ (by norm_num)
  have n1 : (0 : Int) ≤ ((min (countOpenTag (sd "h2") html_code * 5) 15 : Nat) : Int) :=
    Int.natCast_nonneg _
  have n2 : (0 : Int) ≤ ((min (countOpenTag (sd "h3") html_code * 2) 10 : Nat) : Int) :=
    Int.natCast_nonneg _
  have t4 : (0 : Int) ≤ if 3 ≤ countSubCI html_code focus_keyword then (15 : Int) else 0 :=
    ite_nonneg_int _ _ (by norm_num)
  have n3 : (0 : Int) ≤ ((min (reCount aHrefPat html_code * 2) 10 : Nat) : Int) :=
    Int.natCast_nonneg _
  have n4 : (0 : Int) ≤ ((min (reCount aHrefExtPat html_code * 2) 5 : Nat) : Int) :=
    Int.natCast_nonneg _
  have n5 : (0 : Int) ≤ ((min (reCount imgAltPat html_code * 2) 10 : Nat) : Int) :=
    Int.natCast_nonneg _
  have t5 : (0 : Int) ≤ if 600 ≤ wordsCount (stripTags html_code) then (10 : Int) else 0 :=
    ite_nonneg_int _ _ (by norm_num)
  have t6 : (0 : Int) ≤ if hasSubCI html_code (sd "table-of-contents") then (5 : Int) else 0 :=
    ite_nonneg_int _ _ (by norm_num)
  have t7 : (0 : Int) ≤ if hasSubCI html_code (sd "schema.org") then (5 : Int) else 0 :=
    ite_nonneg_int _ _ (by norm_num)
  constructor
  · simp only [calculate_seo_score]
    exact le_min (by linarith) h100
  · simp only [calculate_seo_score]
    exact min_le_right _ _

/-- The score bounds at the level of the response pipeline. -/
theorem pipeline_score_bounds (req : OptimizeRequest) (tagDraw density : Nat)
    (h1 : req.seo_score ≤ 100) :
    (optimizePipeline req tagDraw density).seo_score_before ≤
      (optimizePipeline req tagDraw density).seo_score_after ∧
    (optimizePipeline req tagDraw density).seo_score_after ≤ 100 ∧
    (optimizePipeline req tagDraw density).improvement =
      (optimizePipeline req tagDraw density).seo_score_after -
      (optimizePipeline req tagDraw density).seo_score_before ∧
    0 ≤ (optimizePipeline req tagDraw density).improvement := by
  dsimp only [optimizePipeline]
  refine ⟨(calculate_seo_score_bounds _ _ _ h1).1,
    (calculate_seo_score_bounds _ _ _ h1).2, rfl, ?_⟩
  exact sub_nonneg.mpr (calculate_seo_score_bounds _ _ _ h1).1

/-! ## Claims -/

/-- C1: for every valid `POST /api/optimize` request whose `seo_score` is an
integer in `[0, 100]`, the response's `seo_score_after` lies in
`[seo_score_before, 100]`, and the `improvement` field equals
`seo_score_after - seo_score_before` and is non-negative. -/
theorem c1_score_bounds (kvs : List (List Char × JVal)) (tagDraw density : Nat)
    (r : RespData) (hok : optimize_content (.obj kvs) tagDraw density = .ok r)
    (h0 : 0 ≤ r.seo_score_before) (h1 : r.seo_score_before ≤ 100) :
    r.seo_score_before ≤ r.seo_score_after ∧ r.seo_score_after ≤ 100 ∧
    r.improvement = r.seo_score_after - r.seo_score_before ∧ 0 ≤ r.improvement := by
  unfold optimize_content at hok
  split at hok <;> try exact ApiResponse.noConfusion hok
  split at hok
  · split at hok <;> try exact ApiResponse.noConfusion hok
    injection hok with hr
    subst hr
    exact pipeline_score_bounds _ _ _ h1
  · rename_i hno
    exact (hno _ rfl).elim

set_option maxRecDepth 100000 in
/-- Witness for C1 at a concrete well-typed request. -/
theorem c1_score_bounds_witness :
    (optimizePipeline ⟨sd "Guide", sd "<p>Hello world</p>", sd "Visa", 50⟩ 5 0).seo_score_before ≤
      (optimizePipeline ⟨sd "Guide", sd "<p>Hello world</p>", sd "Visa", 50⟩ 5 0).seo_score_after ∧
    (optimizePipeline ⟨sd "Guide", sd "<p>Hello world</p>", sd "Visa", 50⟩ 5 0).seo_score_after ≤ 100 ∧
    (optimizePipeline ⟨sd "Guide", sd "<p>Hello world</p>", sd "Visa", 50⟩ 5 0).improvement =
      (optimizePipeline ⟨sd "Guide", sd "<p>Hello world</p>", sd "Visa", 50⟩ 5 0).seo_score_after -
      (optimizePipeline ⟨sd "Guide", sd "<p>Hello world</p>", sd "Visa", 50⟩ 5 0).seo_score_before ∧
    0 ≤ (optimizePipeline ⟨sd "Guide", sd "<p>Hello world</p>", sd "Visa", 50⟩ 5 0).improvement :=
  c1_score_bounds kvsGood 5 0 _ rfl (by decide) (by decide)

set_option maxRecDepth 100000 in
/-- C2: the code contradicts the claimed (and docstring's) 160-character
bound: on a body of 80 letters with keyword "a" the 141-character combined
string is below 150, so the padding branch appends the 29-character fixed
phrase, returning 170 characters. -/
theorem c2_meta_description_overflow :
    (generate_meta_description c2Html (sd "a")).length = 170 ∧
    160 < (generate_meta_description c2Html (sd "a")).length := by
  exact ⟨by decide, by decide⟩

/-- C3 (amended): two runs of the optimize operation on the same request
agree on `optimized_title`, `word_count`, `title_length` and `meta_length`,
whatever the random tag draw and density draw; `optimized_html` is excluded
because the keywords meta tag embeds the random-length tag prefix (and
`seo_score_after`/`improvement` are computed from `optimized_html`). -/
theorem c3_deterministic_fields (req : OptimizeRequest) (d1 d2 dens1 dens2 : Nat) :
    (optimizePipeline req d1 dens1).optimized_title =
      (optimizePipeline req d2 dens2).optimized_title ∧
    (optimizePipeline req d1 dens1).word_count =
      (optimizePipeline req d2 dens2).word_count ∧
    (optimizePipeline req d1 dens1).title_length =
      (optimizePipeline req d2 dens2).title_length ∧
    (optimizePipeline req d1 dens1).meta_length =
      (optimizePipeline req d2 dens2).meta_length :=
  ⟨rfl, rfl, rfl, rfl⟩

set_option maxRecDepth 1000000 in
/-- C3 counterexample: with tag draws 5 and 10 the same request yields
different `optimized_html` documents (the keywords meta tag joins the
random-length tag list), refuting the claimed determinism of
`optimized_html`. -/
theorem c3_html_depends_on_draw :
    (optimizePipeline reqEx 5 0).optimized_html ≠
      (optimizePipeline reqEx 10 0).optimized_html := by decide

/-- C4: a request body missing a required field is answered with HTTP 400
naming the first missing field in validation order; the response is the
`badRequest` branch, produced before any optimizer helper runs. -/
theorem c4_missing_field_400 (kvs : List (List Char × JVal)) (tagDraw density : Nat)
    (f : List Char) (hmem : f ∈ requiredFields) (hmiss : hasKey kvs f = false)
    (hfirst : ∀ g ∈ fieldsBefore f, hasKey kvs g = true) :
    optimize_content (.obj kvs) tagDraw density = .badRequest (missingMsg f) := by
  simp only [requiredFields, List.mem_cons, List.not_mem_nil, or_false] at hmem
  obtain rfl | rfl | rfl | rfl := hmem
  · simp [optimize_content, requiredFields, firstMissingGo, pyIn, hmiss]
  · have hT : hasKey kvs (sd "title") = true := hfirst (sd "title") (by decide)
    simp [optimize_content, requiredFields, firstMissingGo, pyIn, hT, hmiss]
  · have hT : hasKey kvs (sd "title") = true := hfirst (sd "title") (by decide)
    have hH : hasKey kvs (sd "html_code") = true := hfirst (sd "html_code") (by decide)
    simp [optimize_content, requiredFields, firstMissingGo, pyIn, hT, hH, hmiss]
  · have hT : hasKey kvs (sd "title") = true := hfirst (sd "title") (by decide)
    have hH : hasKey kvs (sd "html_code") = true := hfirst (sd "html_code") (by decide)
    have hK : hasKey kvs (sd "focus_keyword") = true :=
      hfirst (sd "focus_keyword") (by decide)
    simp [optimize_content, requiredFields, firstMissingGo, pyIn, hT, hH, hK, hmiss]

set_option maxRecDepth 100000 in
/-- Witness for C4: a body with only `title` is refused naming
`html_code`. -/
theorem c4_missing_field_400_witness :
    optimize_content (.obj kvsMissing) 5 0 = .badRequest (missingMsg (sd "html_code")) :=
  c4_missing_field_400 kvsMissing 5 0 (sd "html_code") (by decide) (by decide) (by decide)

/-- C5: for every title and non-empty keyword the title operation keeps the
title when the keyword is a case-insensitive substring and otherwise
prepends `"{keyword} - "`, clamping the result to at most 60 characters;
in particular "Guide"/"Visa" yields "Visa - Guide". -/
theorem c5_title_rule (title focus_keyword : List Char) (hkw : focus_keyword ≠ []) :
    optimize_title title focus_keyword = titleRuleSpec title focus_keyword ∧
    (optimize_title title focus_keyword).length ≤ 60 ∧
    optimize_title (sd "Guide") (sd "Visa") = sd "Visa - Guide" := by
  refine ⟨?_, ?_, by decide⟩
  · cases hc : hasSub (lowerL title) (lowerL focus_keyword) <;>
      simp [optimize_title, titleRuleSpec, hc]
  · cases hc : hasSub (lowerL title) (lowerL focus_keyword) <;>
      · simp only [optimize_title, hc, Bool.not_true, Bool.not_false, if_true, if_false]
        exact clamp60_le _

set_option maxRecDepth 100000 in
/-- Witness for C5 at the concrete spec example. -/
theorem c5_title_rule_witness :
    optimize_title (sd "Guide") (sd "Visa") = titleRuleSpec (sd "Guide") (sd "Visa") ∧
    (optimize_title (sd "Guide") (sd "Visa")).length ≤ 60 ∧
    optimize_title (sd "Guide") (sd "Visa") = sd "Visa - Guide" :=
  c5_title_rule (sd "Guide") (sd "Visa") (by decide)

set_option maxRecDepth 1000000 in
/-- C6: on html `"<p>Hello world</p>"` and keyword `"Test"` the rewritten
body contains the literal `"Test konusunda Hello world"` and the literal
heading `"<h2>Test Nedir?</h2>"`. -/
theorem c6_content_insertions :
    hasSub c7_once (sd "Test konusunda Hello world") = true ∧
    hasSub c7_once (sd "<h2>Test Nedir?</h2>") = true := by
  exact ⟨by decide, by decide⟩

set_option maxRecDepth 1000000 in
/-- C7: the body transform is not idempotent: re-applying the rewriter to
its own output changes it, duplicating the table-of-contents block. -/
theorem c7_not_idempotent :
    c7_twice ≠ c7_once ∧
    countSub c7_once (sd "table-of-contents") = 1 ∧
    countSub c7_twice (sd "table-of-contents") = 2 := by
  exact ⟨by decide, by decide, by decide⟩

/-- C8: for every keyword and draw in `[5, 10]`, the tag suggestion is the
length-`draw` prefix of the fixed 10-entry ordered variant list headed by
the keyword itself, so it has between 5 and 10 entries. -/
theorem c8_tags_prefix (focus_keyword : List Char) (draw : Nat)
    (h5 : 5 ≤ draw) (h10 : draw ≤ 10) :
    generate_tags focus_keyword draw = (base_tags focus_keyword).take draw ∧
    generate_tags focus_keyword draw ++ (base_tags focus_keyword).drop draw =
      base_tags focus_keyword ∧
    (base_tags focus_keyword).length = 10 ∧
    List.head? (base_tags focus_keyword) = some focus_keyword ∧
    5 ≤ (generate_tags focus_keyword draw).length ∧
    (generate_tags focus_keyword draw).length ≤ 10 := by
  have hlen : (base_tags focus_keyword).length = 10 := rfl
  have htake : (generate_tags focus_keyword draw).length =
      min draw (base_tags focus_keyword).length := List.length_take draw _
  refine ⟨rfl, List.take_append_drop draw _, hlen, rfl, ?_, ?_⟩ <;> omega

/-- Witness for C8 at keyword "Visa" and draw 7. -/
theorem c8_tags_prefix_witness :
    generate_tags (sd "Visa") 7 = (base_tags (sd "Visa")).take 7 ∧
    generate_tags (sd "Visa") 7 ++ (base_tags (sd "Visa")).drop 7 = base_tags (sd "Visa") ∧
    (base_tags (sd "Visa")).length = 10 ∧
    List.head? (base_tags (sd "Visa")) = some (sd "Visa") ∧
    5 ≤ (generate_tags (sd "Visa") 7).length ∧
    (generate_tags (sd "Visa") 7).length ≤ 10 :=
  c8_tags_prefix (sd "Visa") 7 (by decide) (by decide)

/-- C9 (amended): the `suggested_tags` field of every successful response is
the single comma-separated string joining the drawn tag list in order —
a JSON string, not a JSON array. -/
theorem c9_tags_joined_string (req : OptimizeRequest) (tagDraw density : Nat) :
    (optimizePipeline req tagDraw density).suggested_tags =
      JVal.str (commaJoin (generate_tags req.focus_keyword tagDraw)) := rfl

set_option maxRecDepth 100000 in
/-- C9 counterexample: on a concrete request the `suggested_tags` field is
the joined string, not an array, refuting the claimed JSON-array shape. -/
theorem c9_tags_not_array :
    (optimizePipeline reqEx 5 0).suggested_tags.isArr = false ∧
    (optimizePipeline reqEx 5 0).suggested_tags =
      JVal.str (sd "Visa, Visa rehberi, Visa nasıl alınır, Visa 2025, Visa başvuru") := by
  exact ⟨rfl, rfl⟩

/-- C10 (amended): a body that parses as JSON but is `null`, a number or a
boolean makes the membership check raise `TypeError`, so the top-level
handler answers HTTP 500 with `success:false` (not 400). -/
theorem c10_noniterable_body_500 (tagDraw density : Nat) (n : Int) (b : Bool) :
    optimize_content JVal.null tagDraw density = .serverError ∧
    optimize_content (JVal.num n) tagDraw density = .serverError ∧
    optimize_content (JVal.bool b) tagDraw density = .serverError :=
  ⟨rfl, rfl, rfl⟩

set_option maxRecDepth 100000 in
/-- C10 counterexample: not every non-object body yields HTTP 500 — for the
JSON string body `"x"` the membership check is Python's substring test, so
the endpoint answers HTTP 400 naming `title`. -/
theorem c10_string_body_400 :
    optimize_content (JVal.str (sd "x")) 5 0 = .badRequest (missingMsg (sd "title")) ∧
    optimize_content (JVal.str (sd "x")) 5 0 ≠ .serverError := by
  refine ⟨rfl, ?_⟩
  intro hcontra
  exact ApiResponse.noConfusion hcontra

end SeoApp
